import Mathlib

/-!
Shallow embedding of the module pos_restrict_out_of_stock
(file models/product.py) over an explicit database environment.

Modelling conventions:
- The float field quantity of stock.quant is modelled as a rational
  number; the aggregation is a plain sum, no float rounding is involved
  in the claims.
- Each ORM table the module reads is a list of rows; a many2one field
  that can be unset is an Option-valued id.
- The child_of domain operator of the ORM is modelled as an abstract
  boolean relation carried by the environment: child_of l r is true
  when location l belongs to the hierarchy rooted at r.
- A product dict of the POS payload is a record: the keys the module
  reads (id, is_storable, type), the key it writes (pos_available_qty,
  where none models an absent key, some none models the Python value
  None and some (some q) a number), and an opaque list of the remaining
  key-value pairs.
- Reading a field of a referenced record that is absent from the
  database raises inside the try block of the source; the embedding
  maps that situation to the same early return that the except branch
  performs.
- The stateful embedding of each method returns the environment next to
  its result, together with the number of read_group calls performed;
  the source contains no create, write or unlink call, so every branch
  hands the environment back unchanged.
-/

/-- One row of the stock.quant table, with the fields the module reads. -/
structure StockQuant where
  product_id : Nat
  location_id : Nat
  company_id : Nat
  quantity : Rat
deriving DecidableEq

/-- One row of stock.picking.type, with the single field the module reads. -/
structure StockPickingType where
  id : Nat
  default_location_src_id : Option Nat
deriving DecidableEq

/-- One row of stock.warehouse, with the single field the module reads. -/
structure StockWarehouse where
  id : Nat
  lot_stock_id : Option Nat
deriving DecidableEq

/-- One row of pos.config, with the fields the module reads. -/
structure PosConfig where
  id : Nat
  picking_type_id : Option Nat
  warehouse_id : Option Nat
  company_id : Nat
deriving DecidableEq

/-- One product dict of the POS payload. -/
structure ProductDict where
  id : Nat
  is_storable : Bool
  type : Option String
  pos_available_qty : Option (Option Rat)
  others : List (String × String)
deriving DecidableEq

/-- The database environment self.env, restricted to what the module reads. -/
structure Env where
  configs : List PosConfig
  picking_types : List StockPickingType
  warehouses : List StockWarehouse
  quants : List StockQuant
  child_of : Nat → Nat → Bool

/-- Record lookup for pos.config: browse plus the exists check. -/
def Env.getConfig (env : Env) (i : Nat) : Option PosConfig :=
  env.configs.find? (fun c => c.id == i)

/-- Record lookup for stock.picking.type. -/
def Env.getPickingType (env : Env) (i : Nat) : Option StockPickingType :=
  env.picking_types.find? (fun pt => pt.id == i)

/-- Record lookup for stock.warehouse. -/
def Env.getWarehouse (env : Env) (i : Nat) : Option StockWarehouse :=
  env.warehouses.find? (fun w => w.id == i)

/-- The config argument of _process_pos_ui_product_product: either an
integer id, or a recordset, which is falsy (empty or None, modelled by
none) or carries the id of one pos.config row. -/
inductive ConfigArg where
  | byId : Nat → ConfigArg
  | byRec : Option Nat → ConfigArg
deriving DecidableEq

/-- Lines 46 to 57 of models/product.py: an int is browsed, a falsy
recordset returns early, and a config that does not pass the exists
check returns early. The result is the pos.config row the rest of the
method reads, none meaning the early return. -/
def resolveConfig (env : Env) : ConfigArg → Option PosConfig
  | ConfigArg.byId i => env.getConfig i
  | ConfigArg.byRec none => none
  | ConfigArg.byRec (some i) => env.getConfig i

/-- Lines 59 to 67 of models/product.py: return early when the config
has no picking type, otherwise take the default source location of the
picking type, falling back to the lot stock location of the warehouse
when the config has one. A dangling reference makes the field read
raise, which the except branch turns into the same early return. -/
def resolveLocation (env : Env) (cfg : PosConfig) : Option Nat :=
  match cfg.picking_type_id with
  | none => none
  | some ptId =>
    match env.getPickingType ptId with
    | none => none
    | some pt =>
      match pt.default_location_src_id with
      | some loc => some loc
      | none =>
        match cfg.warehouse_id with
        | none => none
        | some whId =>
          match env.getWarehouse whId with
          | none => none
          | some wh => wh.lot_stock_id

/-- The quants matched by the read_group domain: product_id in
product_ids, location_id child_of loc, company_id equal to company. -/
def matchingQuants (env : Env) (product_ids : List Nat) (loc company : Nat) :
    List StockQuant :=
  env.quants.filter (fun q =>
    decide (q.product_id ∈ product_ids) && env.child_of q.location_id loc &&
      q.company_id == company)

/-- The sum of the quantity field over the quants of one group. -/
def groupSum (qs : List StockQuant) (pid : Nat) : Rat :=
  ((qs.filter (fun q => q.product_id == pid)).map (fun q => q.quantity)).sum

/-- The read_group call of lines 73 to 82: the matched quants grouped by
product_id, each group carrying the sum of its quantity field. -/
def quant_read_group (env : Env) (product_ids : List Nat) (loc company : Nat) :
    List (Nat × Rat) :=
  let qs := matchingQuants env product_ids loc company
  ((qs.map (fun q => q.product_id)).dedup).map (fun pid => (pid, groupSum qs pid))

/-- The dict qty_by_product of line 83 read at key pid with default 0.0. -/
def qty_by_product (env : Env) (product_ids : List Nat) (loc company pid : Nat) :
    Rat :=
  match (quant_read_group env product_ids loc company).find? (fun kv => kv.1 == pid) with
  | some kv => kv.2
  | none => 0

/-- The loop body of lines 85 to 94: a storable product (is_storable
truthy, or type equal to the string product) receives the aggregated
quantity, every other product receives None. -/
def process_product (qty : Nat → Rat) (p : ProductDict) : ProductDict :=
  if p.is_storable || (p.type == some ("product")) then
    { p with pos_available_qty := some (some (qty p.id)) }
  else
    { p with pos_available_qty := some none }

/-- The whole method _process_pos_ui_product_product, acting on the
product list as the call to super left it, threading the environment
and counting read_group calls. -/
def _process_pos_ui_product_productS (env : Env) (products : List ProductDict)
    (config : ConfigArg) : Env × List ProductDict × Nat :=
  if products.isEmpty then (env, products, 0)
  else
    match resolveConfig env config with
    | none => (env, products, 0)
    | some cfg =>
      match resolveLocation env cfg with
      | none => (env, products, 0)
      | some loc =>
        let product_ids := products.map (fun p => p.id)
        (env,
         products.map (process_product (qty_by_product env product_ids loc cfg.company_id)),
         1)

/-- The product list _process_pos_ui_product_product leaves behind. -/
def _process_pos_ui_product_product (env : Env) (products : List ProductDict)
    (config : ConfigArg) : List ProductDict :=
  (_process_pos_ui_product_productS env products config).2.1

/-- The method _load_pos_data_fields, acting on the field list the call
to super returned: append type and is_storable when absent. -/
def _load_pos_data_fields (superFields : List String) : List String :=
  ["type", "is_storable"].foldl
    (fun fields extra => if extra ∈ fields then fields else fields ++ [extra])
    superFields

/-- The method _load_pos_data_fields as a state transformer on the
environment: its body touches no table at all. -/
def _load_pos_data_fieldsS (env : Env) (superFields : List String)
    (_config_id : Nat) : Env × List String :=
  (env, _load_pos_data_fields superFields)

/-- Written from the words of claim C1: the sum of the quantity field
over all stock.quant rows whose product_id is pid, whose location_id
lies in the child_of hierarchy of loc and whose company_id is company. -/
def spec_qty_at_location (env : Env) (loc company pid : Nat) : Rat :=
  ((env.quants.filter (fun q =>
      q.product_id == pid && env.child_of q.location_id loc &&
        q.company_id == company)).map (fun q => q.quantity)).sum

/-- Written from the words of claim C2: the default source location of
the picking type of the config when that is set, otherwise the lot
stock location of the warehouse of the config when the config has a
warehouse. -/
def specLocation (env : Env) (cfg : PosConfig) : Option Nat :=
  match cfg.picking_type_id.bind
      (fun ptId => (env.getPickingType ptId).bind
        (fun pt => pt.default_location_src_id)) with
  | some loc => some loc
  | none =>
    cfg.warehouse_id.bind
      (fun whId => (env.getWarehouse whId).bind (fun wh => wh.lot_stock_id))

/-- Erase the one key the method writes; used to state the frame claim. -/
def stripQty (p : ProductDict) : ProductDict :=
  { p with pos_available_qty := none }

/-- A concrete pos.config row used by the witnesses. -/
def cfgW : PosConfig :=
  { id := 1, picking_type_id := some 11, warehouse_id := some 21, company_id := 31 }

/-- A concrete environment used by the witnesses: location 43 is a child
of the resolved location 41, location 44 is not, and one quant belongs
to another company. -/
def envW : Env :=
  { configs := [cfgW]
    picking_types := [{ id := 11, default_location_src_id := some 41 }]
    warehouses := [{ id := 21, lot_stock_id := some 42 }]
    quants :=
      [ { product_id := 101, location_id := 41, company_id := 31, quantity := 5 }
      , { product_id := 101, location_id := 43, company_id := 31, quantity := 2 }
      , { product_id := 101, location_id := 44, company_id := 31, quantity := 7 }
      , { product_id := 102, location_id := 41, company_id := 99, quantity := 3 } ]
    child_of := fun l r => (l == r) || ((l == 43) && (r == 41)) }

/-- A concrete storable product dict used by the witnesses. -/
def p1W : ProductDict :=
  { id := 101, is_storable := true, type := some ("product")
    pos_available_qty := none, others := [("name", "A")] }

/-- A concrete service product dict used by the witnesses. -/
def p2W : ProductDict :=
  { id := 102, is_storable := false, type := some ("service")
    pos_available_qty := none, others := [] }

/-- The concrete product list used by the witnesses. -/
def psW : List ProductDict := [p1W, p2W]


lemma isEmpty_false_of_ne_nil {ps : List ProductDict} (h : ps ≠ []) :
    ps.isEmpty = false := by
  cases ps with
  | nil => exact absurd rfl h
  | cons a l => rfl

lemma processS_of_success (env : Env) (ps : List ProductDict) (arg : ConfigArg)
    (cfg : PosConfig) (loc : Nat) (hne : ps ≠ [])
    (hc : resolveConfig env arg = some cfg)
    (hl : resolveLocation env cfg = some loc) :
    _process_pos_ui_product_productS env ps arg =
      (env,
       ps.map (process_product
         (qty_by_product env (ps.map (fun p => p.id)) loc cfg.company_id)),
       1) := by
  simp [_process_pos_ui_product_productS, isEmpty_false_of_ne_nil hne, hc, hl]

lemma processS_of_empty (env : Env) (arg : ConfigArg) :
    _process_pos_ui_product_productS env [] arg = (env, [], 0) := by
  simp [_process_pos_ui_product_productS]

lemma processS_of_no_config (env : Env) (ps : List ProductDict) (arg : ConfigArg)
    (hc : resolveConfig env arg = none) :
    _process_pos_ui_product_productS env ps arg = (env, ps, 0) := by
  cases hps : ps.isEmpty with
  | true =>
    have : ps = [] := List.isEmpty_iff.mp hps
    subst this
    exact processS_of_empty env arg
  | false => simp [_process_pos_ui_product_productS, hps, hc]

lemma processS_of_no_location (env : Env) (ps : List ProductDict)
    (arg : ConfigArg) (cfg : PosConfig)
    (hc : resolveConfig env arg = some cfg)
    (hl : resolveLocation env cfg = none) :
    _process_pos_ui_product_productS env ps arg = (env, ps, 0) := by
  cases hps : ps.isEmpty with
  | true =>
    have : ps = [] := List.isEmpty_iff.mp hps
    subst this
    exact processS_of_empty env arg
  | false => simp [_process_pos_ui_product_productS, hps, hc, hl]

lemma find?_pair_map (g : Nat → Rat) (keys : List Nat) (pid : Nat) :
    (keys.map (fun k => (k, g k))).find? (fun kv => kv.1 == pid) =
      (keys.find? (fun k => k == pid)).map (fun k => (k, g k)) := by
  induction keys with
  | nil => rfl
  | cons k ks ih =>
    cases h : (k == pid) with
    | true => simp [List.find?, h]
    | false => simp [List.find?, h, ih]

lemma qty_by_product_eq_groupSum (env : Env) (ids : List Nat)
    (loc company pid : Nat) :
    qty_by_product env ids loc company pid =
      groupSum (matchingQuants env ids loc company) pid := by
  unfold qty_by_product quant_read_group
  rw [find?_pair_map]
  cases hf : ((matchingQuants env ids loc company).map
      (fun q => q.product_id)).dedup.find? (fun k => k == pid) with
  | some k =>
    have hk := List.find?_some hf
    have hk2 : k = pid := by simpa using hk
    subst hk2
    simp
  | none =>
    have hall := List.find?_eq_none.mp hf
    have hpid : pid ∉ (matchingQuants env ids loc company).map
        (fun q => q.product_id) := by
      intro hmem
      exact hall pid (List.mem_dedup.mpr hmem) (by simp)
    have hfil : (matchingQuants env ids loc company).filter
        (fun q => q.product_id == pid) = [] := by
      rw [List.filter_eq_nil_iff]
      intro q hq
      simp only [beq_iff_eq]
      intro hqe
      exact hpid (List.mem_map.mpr ⟨q, hq, hqe⟩)
    simp [groupSum, hfil]

lemma groupSum_matching_eq_spec (env : Env) (ids : List Nat)
    (loc company pid : Nat) (h : pid ∈ ids) :
    groupSum (matchingQuants env ids loc company) pid =
      spec_qty_at_location env loc company pid := by
  unfold groupSum matchingQuants spec_qty_at_location
  rw [List.filter_filter]
  have heq : ∀ q ∈ env.quants,
      ((q.product_id == pid) &&
        (decide (q.product_id ∈ ids) && env.child_of q.location_id loc &&
          (q.company_id == company))) =
      ((q.product_id == pid) && env.child_of q.location_id loc &&
        (q.company_id == company)) := by
    intro q hq
    cases hqe : (q.product_id == pid) with
    | true =>
      have hq2 : q.product_id = pid := by simpa using hqe
      simp [hqe, hq2, h, Bool.and_assoc]
    | false => simp [hqe]
  rw [List.filter_congr heq]

lemma resolveLocation_imp_spec (env : Env) (cfg : PosConfig) (loc : Nat)
    (h : resolveLocation env cfg = some loc) :
    specLocation env cfg = some loc := by
  unfold resolveLocation at h
  unfold specLocation
  cases hpt : cfg.picking_type_id with
  | none => simp [hpt] at h
  | some ptId =>
    cases hg : env.getPickingType ptId with
    | none => simp [hpt, hg] at h
    | some pt =>
      cases hd : pt.default_location_src_id with
      | some l =>
        simp [hpt, hg, hd] at h
        simp [hpt, hg, hd]
        exact h
      | none =>
        cases hw : cfg.warehouse_id with
        | none => simp [hpt, hg, hd, hw] at h
        | some whId =>
          cases hgw : env.getWarehouse whId with
          | none => simp [hpt, hg, hd, hw, hgw] at h
          | some wh =>
            simp [hpt, hg, hd, hw, hgw] at h
            simp [hpt, hg, hd, hw, hgw]
            exact h

lemma load_fields_char (l : List String) :
    _load_pos_data_fields l =
      (l ++ (if "type" ∈ l then [] else ["type"])) ++
        (if "is_storable" ∈ l then [] else ["is_storable"]) := by
  have hne : ¬ ("is_storable" : String) = "type" := by decide
  unfold _load_pos_data_fields
  simp only [List.foldl_cons, List.foldl_nil]
  by_cases h1 : ("type" : String) ∈ l
  · by_cases h2 : ("is_storable" : String) ∈ l
    · simp [h1, h2]
    · simp [h1, h2]
  · by_cases h2 : ("is_storable" : String) ∈ l
    · simp [h1, h2, hne]
    · simp [h1, h2, hne]

lemma load_fields_mem_type (l : List String) :
    "type" ∈ _load_pos_data_fields l := by
  rw [load_fields_char]
  by_cases h1 : ("type" : String) ∈ l
  · simp [h1]
  · simp [h1]

lemma load_fields_mem_storable (l : List String) :
    "is_storable" ∈ _load_pos_data_fields l := by
  rw [load_fields_char]
  by_cases h2 : ("is_storable" : String) ∈ l
  · simp [h2]
  · simp [h2]

lemma load_fields_of_mem (l : List String) (h1 : "type" ∈ l)
    (h2 : "is_storable" ∈ l) : _load_pos_data_fields l = l := by
  rw [load_fields_char]
  simp [h1, h2]

lemma load_fields_nodup (l : List String) (h : l.Nodup) :
    (_load_pos_data_fields l).Nodup := by
  have hne : ¬ ("is_storable" : String) = "type" := by decide
  rw [load_fields_char]
  by_cases h1 : ("type" : String) ∈ l
  · by_cases h2 : ("is_storable" : String) ∈ l
    · simpa [h1, h2] using h
    · simp [h1, h2, List.nodup_append, h, List.disjoint_singleton]
  · by_cases h2 : ("is_storable" : String) ∈ l
    · simp [h1, h2, List.nodup_append, h, List.disjoint_singleton]
    · simp [h1, h2, List.nodup_append, h, List.disjoint_singleton, hne]

/-- C1: for every non-empty list of product dicts and every POS config
from which a stock location is resolved, after the method each storable
product dict (is_storable truthy, or type equal to the string product)
has pos_available_qty equal to the sum of the quantity field over all
stock.quant rows whose product_id is that product, whose location_id
lies in the child_of hierarchy of the resolved location and whose
company_id equals the company of the config; the sum over no rows is
zero, so a product without matching quant rows receives 0.0. -/
theorem C1_storable_quantity (env : Env) (ps : List ProductDict)
    (arg : ConfigArg) (cfg : PosConfig) (loc : Nat)
    (hc : resolveConfig env arg = some cfg)
    (hl : resolveLocation env cfg = some loc)
    (i : Nat) (p : ProductDict) (hp : ps[i]? = some p)
    (hs : p.is_storable = true ∨ p.type = some ("product")) :
    (_process_pos_ui_product_product env ps arg)[i]? =
      some ({ p with pos_available_qty := some (some (spec_qty_at_location env loc cfg.company_id p.id)) }) := by
  have hne : ps ≠ [] := by
    intro hnil
    subst hnil
    simp at hp
  have hmem : p ∈ ps := List.getElem?_mem hp
  have hpid : p.id ∈ ps.map (fun p => p.id) := List.mem_map.mpr ⟨p, hmem, rfl⟩
  unfold _process_pos_ui_product_product
  rw [processS_of_success env ps arg cfg loc hne hc hl]
  simp only [List.getElem?_map, hp, Option.map_some']
  unfold process_product
  have hcond : (p.is_storable || (p.type == some ("product"))) = true := by
    rcases hs with hs1 | hs2
    · simp [hs1]
    · simp [hs2]
  rw [if_pos hcond]
  rw [qty_by_product_eq_groupSum,
    groupSum_matching_eq_spec env _ loc cfg.company_id p.id hpid]

theorem C1_storable_quantity_witness :
    (_process_pos_ui_product_product envW psW (ConfigArg.byId 1))[0]? =
      some ({ p1W with pos_available_qty := some (some (spec_qty_at_location envW 41 31 101)) }) :=
  C1_storable_quantity envW psW (ConfigArg.byId 1) cfgW 41 (by rfl) (by rfl)
    0 p1W (by rfl) (Or.inl (by rfl))

/-- C2: for every config argument, int id or recordset, that resolves
to a pos.config row: whenever the method reaches the aggregation with a
location, that location is the default source location of the picking
type of the config when set, otherwise the lot stock location of the
warehouse of the config, and the aggregation happens only when such a
location exists; when no location is resolved the method changes
nothing. -/
theorem C2_location_resolution (env : Env) (ps : List ProductDict)
    (arg : ConfigArg) (cfg : PosConfig) (hne : ps ≠ [])
    (hc : resolveConfig env arg = some cfg) :
    (∀ loc, resolveLocation env cfg = some loc →
        specLocation env cfg = some loc ∧
        _process_pos_ui_product_product env ps arg =
          ps.map (process_product
            (qty_by_product env (ps.map (fun p => p.id)) loc cfg.company_id)))
    ∧ (resolveLocation env cfg = none →
        _process_pos_ui_product_product env ps arg = ps) := by
  constructor
  · intro loc hl
    refine ⟨resolveLocation_imp_spec env cfg loc hl, ?_⟩
    unfold _process_pos_ui_product_product
    rw [processS_of_success env ps arg cfg loc hne hc hl]
  · intro hl
    unfold _process_pos_ui_product_product
    rw [processS_of_no_location env ps arg cfg hc hl]

theorem C2_location_resolution_witness :
    specLocation envW cfgW = some 41 ∧
    _process_pos_ui_product_product envW psW (ConfigArg.byId 1) =
      psW.map (process_product
        (qty_by_product envW (psW.map (fun p => p.id)) 41 cfgW.company_id)) :=
  (C2_location_resolution envW psW (ConfigArg.byId 1) cfgW (by decide)
    (by rfl)).1 41 (by rfl)

/-- C3: for every product dict that is not storable (is_storable falsy
and type not the string product), a run that resolves a stock location
sets pos_available_qty to None, not to a number. -/
theorem C3_non_storable_none (env : Env) (ps : List ProductDict)
    (arg : ConfigArg) (cfg : PosConfig) (loc : Nat)
    (hc : resolveConfig env arg = some cfg)
    (hl : resolveLocation env cfg = some loc)
    (i : Nat) (p : ProductDict) (hp : ps[i]? = some p)
    (h1 : p.is_storable = false) (h2 : p.type ≠ some ("product")) :
    (_process_pos_ui_product_product env ps arg)[i]? =
      some ({ p with pos_available_qty := some none }) := by
  have hne : ps ≠ [] := by
    intro hnil
    subst hnil
    simp at hp
  unfold _process_pos_ui_product_product
  rw [processS_of_success env ps arg cfg loc hne hc hl]
  simp only [List.getElem?_map, hp, Option.map_some']
  unfold process_product
  have hcond : (p.is_storable || (p.type == some ("product"))) = false := by
    cases hty : (p.type == some ("product")) with
    | true => exact absurd (by simpa using hty) h2
    | false => simp [h1, hty]
  simp [hcond]

theorem C3_non_storable_none_witness :
    (_process_pos_ui_product_product envW psW (ConfigArg.byId 1))[1]? =
      some ({ p2W with pos_available_qty := some none }) :=
  C3_non_storable_none envW psW (ConfigArg.byId 1) cfgW 41 (by rfl) (by rfl)
    1 p2W (by rfl) (by rfl) (by decide)

/-- C4: after a run on a non-empty product list with a config that
resolves to a stock location, every dict of the resulting products list
carries the key pos_available_qty, storable or not. -/
theorem C4_key_present (env : Env) (ps : List ProductDict) (arg : ConfigArg)
    (cfg : PosConfig) (loc : Nat) (hne : ps ≠ [])
    (hc : resolveConfig env arg = some cfg)
    (hl : resolveLocation env cfg = some loc)
    (q : ProductDict) (hq : q ∈ _process_pos_ui_product_product env ps arg) :
    q.pos_available_qty.isSome = true := by
  unfold _process_pos_ui_product_product at hq
  rw [processS_of_success env ps arg cfg loc hne hc hl] at hq
  rcases List.mem_map.mp hq with ⟨p, hp, hqp⟩
  subst hqp
  unfold process_product
  by_cases hcond : (p.is_storable || (p.type == some ("product"))) = true
  · simp [hcond]
  · simp [hcond]

/-- The second dict the witness run produces, its quantity key set to
None. -/
def q2W : ProductDict := { p2W with pos_available_qty := some none }

theorem C4_key_present_witness : q2W.pos_available_qty.isSome = true :=
  C4_key_present envW psW (ConfigArg.byId 1) cfgW 41 (by decide) (by rfl)
    (by rfl) q2W (by decide)

/-- C5: whenever the method cannot proceed, because the product list is
empty, the config argument is falsy or resolves to no existing row, or
no stock location can be resolved from the config (the case every
caught exception also lands in), the products list is returned exactly
as the call to super left it. -/
theorem C5_early_return (env : Env) (ps : List ProductDict) (arg : ConfigArg)
    (h : ps = [] ∨ resolveConfig env arg = none ∨
      ∃ cfg, resolveConfig env arg = some cfg ∧ resolveLocation env cfg = none) :
    _process_pos_ui_product_product env ps arg = ps := by
  unfold _process_pos_ui_product_product
  rcases h with h1 | h2 | ⟨cfg, hc, hl⟩
  · subst h1
    rw [processS_of_empty]
  · rw [processS_of_no_config env ps arg h2]
  · rw [processS_of_no_location env ps arg cfg hc hl]

theorem C5_early_return_witness :
    _process_pos_ui_product_product envW psW (ConfigArg.byRec none) = psW :=
  C5_early_return envW psW (ConfigArg.byRec none) (Or.inr (Or.inl (by rfl)))

/-- C6: every run changes at most the key pos_available_qty of each
dict: erasing that one key from every dict of the result gives back the
input list key for key, element for element, in the same order. -/
theorem C6_frame (env : Env) (ps : List ProductDict) (arg : ConfigArg) :
    (_process_pos_ui_product_product env ps arg).map stripQty =
      ps.map stripQty := by
  by_cases hne : ps = []
  · subst hne
    unfold _process_pos_ui_product_product
    rw [processS_of_empty]
  · cases hc : resolveConfig env arg with
    | none =>
      unfold _process_pos_ui_product_product
      rw [processS_of_no_config env ps arg hc]
    | some cfg =>
      cases hl : resolveLocation env cfg with
      | none =>
        unfold _process_pos_ui_product_product
        rw [processS_of_no_location env ps arg cfg hc hl]
      | some loc =>
        unfold _process_pos_ui_product_product
        rw [processS_of_success env ps arg cfg loc hne hc hl]
        show (ps.map (process_product
          (qty_by_product env (ps.map (fun p => p.id)) loc
            cfg.company_id))).map stripQty = ps.map stripQty
        rw [List.map_map]
        apply List.map_congr_left
        intro p hp
        show stripQty (process_product
          (qty_by_product env (ps.map (fun p => p.id)) loc cfg.company_id) p) =
            stripQty p
        unfold process_product stripQty
        by_cases hcond : (p.is_storable || (p.type == some ("product"))) = true
        · simp [hcond]
        · simp [hcond]

/-- C7: a successful run, one reaching the aggregation, performs
exactly one read_group call over stock.quant, and its whole effect on
the list is the one conditional assignment mapped over the products. -/
theorem C7_single_read_group (env : Env) (ps : List ProductDict)
    (arg : ConfigArg) (cfg : PosConfig) (loc : Nat) (hne : ps ≠ [])
    (hc : resolveConfig env arg = some cfg)
    (hl : resolveLocation env cfg = some loc) :
    (_process_pos_ui_product_productS env ps arg).2.2 = 1 ∧
    (_process_pos_ui_product_productS env ps arg).2.1 =
      ps.map (process_product
        (qty_by_product env (ps.map (fun p => p.id)) loc cfg.company_id)) := by
  rw [processS_of_success env ps arg cfg loc hne hc hl]
  exact ⟨rfl, rfl⟩

theorem C7_single_read_group_witness :
    (_process_pos_ui_product_productS envW psW (ConfigArg.byId 1)).2.2 = 1 ∧
    (_process_pos_ui_product_productS envW psW (ConfigArg.byId 1)).2.1 =
      psW.map (process_product
        (qty_by_product envW (psW.map (fun p => p.id)) 41 cfgW.company_id)) :=
  C7_single_read_group envW psW (ConfigArg.byId 1) cfgW 41 (by decide)
    (by rfl) (by rfl)

/-- C8: neither method writes persistent state: both state transformers
hand the database environment back unchanged on every input, all
mutation being confined to the returned in-memory lists. -/
theorem C8_no_database_writes (env : Env) (ps : List ProductDict)
    (arg : ConfigArg) (superFields : List String) (config_id : Nat) :
    (_process_pos_ui_product_productS env ps arg).1 = env ∧
    (_load_pos_data_fieldsS env superFields config_id).1 = env := by
  constructor
  · by_cases hne : ps = []
    · subst hne
      rw [processS_of_empty]
    · cases hc : resolveConfig env arg with
      | none => rw [processS_of_no_config env ps arg hc]
      | some cfg =>
        cases hl : resolveLocation env cfg with
        | none => rw [processS_of_no_location env ps arg cfg hc hl]
        | some loc => rw [processS_of_success env ps arg cfg loc hne hc hl]
  · rfl

/-- C9: _load_pos_data_fields returns the list super produced with its
order preserved, followed by type and then is_storable appended only
when absent; the result contains both names, introduces no duplicates,
and the extension is idempotent. -/
theorem C9_load_fields (l : List String) :
    _load_pos_data_fields l =
      (l ++ (if "type" ∈ l then [] else ["type"])) ++
        (if "is_storable" ∈ l then [] else ["is_storable"]) ∧
    "type" ∈ _load_pos_data_fields l ∧
    "is_storable" ∈ _load_pos_data_fields l ∧
    (l.Nodup → (_load_pos_data_fields l).Nodup) ∧
    ("type" ∈ l → "is_storable" ∈ l → _load_pos_data_fields l = l) ∧
    _load_pos_data_fields (_load_pos_data_fields l) = _load_pos_data_fields l :=
  ⟨load_fields_char l, load_fields_mem_type l, load_fields_mem_storable l,
   load_fields_nodup l, load_fields_of_mem l,
   load_fields_of_mem (_load_pos_data_fields l) (load_fields_mem_type l)
     (load_fields_mem_storable l)⟩

theorem C9_load_fields_witness :
    _load_pos_data_fields ["id"] = ["id", "type", "is_storable"] ∧
    "is_storable" ∈ _load_pos_data_fields ["id"] := by
  have h := C9_load_fields ["id"]
  exact ⟨by rw [h.1]; decide, h.2.2.1⟩
